import Mathlib

/-!
Verification of the schema-upgrade orchestrator in `src/db/upgrade/mod.rs`
(moonfire-nvr). The Rust code is shallowly embedded as explicit
state-passing functions over `DbState`; external collaborators (the SQLite
engine's journal-mode grant, the per-version step bodies, the wall clock,
the build version string) are an `Oracle` parameter.
-/

namespace Upgrade

/-- A row of the `version` table: `{id, unix_time, notes}`. -/
structure VersionRow where
  id : Int
  unix_time : Int
  notes : String
deriving DecidableEq, Repr

/-- `pub struct Args<'a>` from `mod.rs`. -/
structure Args where
  flag_sample_file_dir : Option String
  flag_preset_journal : String
  flag_no_vacuum : Bool
deriving DecidableEq, Repr

/-- Observable state of the SQLite connection/database.
`pragmas` is the trace of pragma statements executed on the connection, in
order; `txs` counts transactions opened; `journalLog` records, in order,
each `info!("...database now in journal_mode {} (requested {}).")` line as
the pair (actual, requested). `schemaVer` is the structural schema version
the step bodies maintain. -/
structure DbState where
  version : List VersionRow
  schemaVer : Int
  foreignKeys : Bool
  fullfsync : Bool
  synchronous : Int
  journalMode : String
  pageSize : Int
  vacuumCount : Nat
  pragmas : List String
  txs : Nat
  journalLog : List (String × String)
deriving DecidableEq, Repr

/-- Errors distinguishable by the distinct `bail!`/`?` sites of `mod.rs`. -/
inductive UErr where
  /-- `bail!("Database is at version {}, later than expected {}", ...)` -/
  | versionOutOfRange (observed expected : Int)
  /-- `bail!("Database is at negative version {}!", ...)` -/
  | corruptVersion (observed : Int)
  /-- a step handler `upgraders[ver]` returned `Err`, propagated by `?` -/
  | stepFailure (ver : Int)
  /-- `select max(id) from version` produced no integer (empty table) -/
  | nullVersion
deriving DecidableEq, Repr

/-- How a call ends abnormally: a propagated `Err`, or a Rust panic
(`assert!`, `.unwrap()`, out-of-bounds indexing). -/
inductive Fail where
  | err (e : UErr)
  | panicked (msg : String)
deriving DecidableEq, Repr

/-- Result of running an embedded fragment: the connection state survives
both success and failure (the Rust code works through `&mut Connection`). -/
inductive MRes (α : Type) where
  | ok (a : α) (s : DbState)
  | error (f : Fail) (s : DbState)
deriving DecidableEq, Repr

/-- External behavior: `grant r` is the journal mode the engine actually
grants when `r` is requested; `stepOk i` is whether step handler `i`
succeeds; `now v` is the wall clock observed while committing step `v`;
`pkgVersion` is the build's `CARGO_PKG_VERSION`. -/
structure Oracle where
  grant : String → String
  stepOk : Nat → Bool
  now : Int → Int
  pkgVersion : String

/-- `const UPGRADE_NOTES` (its `env!("CARGO_PKG_VERSION")` part comes from
the build, hence from the oracle). -/
def UPGRADE_NOTES (o : Oracle) : String :=
  "upgraded using moonfire-db " ++ o.pkgVersion

/-- `.unwrap()` on a `Result`: an `Err` becomes a panic. -/
def unwrapFail : Fail → Fail
  | .err _ => .panicked "called unwrap on an Err value"
  | f => f

/-- `fn set_journal_mode(conn, requested)`. Asserts the requested string
holds no ';'; then issues `pragma journal_mode = {requested}` and reads
back the actually-granted mode, which it logs. Returns `Ok(())`. -/
def set_journal_mode (o : Oracle) (requested : String) (st : DbState) :
    MRes Unit :=
  if requested.data.contains ';' then
    .error (.panicked "assertion failed: journal mode contains a semicolon") st
  else
    let actual := o.grant requested
    .ok () { st with
      pragmas := st.pragmas ++ ["pragma journal_mode = " ++ requested],
      journalMode := actual,
      journalLog := st.journalLog ++ [(actual, requested)] }

/-- Modelled from the spec: `db::EXPECTED_VERSION` lives outside this
file's source. "expected version (constant, equal to the Step Registry's
length)"; the registry in `upgrade` has the five handlers
`v0_to_v1 … v4_to_v5`. -/
def EXPECTED_VERSION : Int := 5

/-- Modelled from the spec: the per-version step bodies (`v0_to_v1::run` …
`v4_to_v5::run`) are external collaborators; "a pure external function of
(migration configuration, transaction handle) → success/failure; on
success it must leave the schema at exactly version N+1". The oracle
decides whether slot `i` succeeds. -/
def mkStep (o : Oracle) (i : Nat) : Args → DbState → MRes Unit :=
  fun _ st =>
    if o.stepOk i then
      .ok () { st with schemaVer := ((i + 1 : Nat) : Int) }
    else
      .error (.err (.stepFailure (((i : Nat) : Int)))) st

/-- `let upgraders = [v0_to_v1::run, …, v4_to_v5::run];` -/
def upgraders (o : Oracle) : List (Args → DbState → MRes Unit) :=
  [mkStep o 0, mkStep o 1, mkStep o 2, mkStep o 3, mkStep o 4]

/-- `select max(id) from version` (NULL on an empty table). -/
def maxId (rows : List VersionRow) : Option Int :=
  (rows.map (·.id)).max?

/-- Rust `ver as usize` on an `i32`: sign-extend and reinterpret. -/
def usizeOfI32 (v : Int) : Nat := (v % (2 : Int) ^ 64).toNat

/-- One iteration of the `for ver in old_ver .. target_ver` body: open a
transaction, run `upgraders[ver as usize]`, insert the version row
`(ver+1, now, UPGRADE_NOTES)`, commit. An `Err` from the step drops the
transaction, rolling back its changes. -/
def stepTx (o : Oracle) (args : Args) (ver : Int) (st : DbState) :
    MRes Unit :=
  let st := { st with txs := st.txs + 1 }
  match (upgraders o)[usizeOfI32 ver]? with
  | none => .error (.panicked "index out of bounds") st
  | some step =>
    match step args st with
    | .error f _ => .error f st
    | .ok () st1 =>
      let st2 := { st1 with
        version := st1.version ++ [⟨ver + 1, o.now ver, UPGRADE_NOTES o⟩] }
      .ok () st2

/-- The `for ver in old_ver .. target_ver` loop, as iteration count plus
current `ver` (the count is `(target_ver - old_ver).toNat`). -/
def upgradeLoop (o : Oracle) (args : Args) :
    Int → Nat → DbState → MRes Unit
  | _, 0, st => .ok () st
  | ver, n + 1, st =>
    match stepTx o args ver st with
    | .error f s => .error f s
    | .ok () s => upgradeLoop o args (ver + 1) n s

/-- `fn upgrade(args, target_ver, conn)`. -/
def upgrade (o : Oracle) (args : Args) (target_ver : Int) (st : DbState) :
    MRes Unit :=
  if (upgraders o).length ≠ EXPECTED_VERSION.toNat then
    .error (.panicked "assert_eq failed: upgraders.len() != EXPECTED_VERSION") st
  else
    match maxId st.version with
    | none => .error (.err .nullVersion) st
    | some old_ver =>
      if old_ver > EXPECTED_VERSION then
        .error (.err (.versionOutOfRange old_ver EXPECTED_VERSION)) st
      else if old_ver < 0 then
        .error (.err (.corruptVersion old_ver)) st
      else
        match set_journal_mode o args.flag_preset_journal st with
        | .error f s => .error (unwrapFail f) s
        | .ok () s =>
          upgradeLoop o args old_ver (target_ver - old_ver).toNat s

/-- `pub fn run(args, conn)`. -/
def run (o : Oracle) (args : Args) (st : DbState) : MRes Unit :=
  let st := { st with foreignKeys := true, pragmas := st.pragmas ++ ["pragma foreign_keys = on"] }
  let st := { st with fullfsync := true, pragmas := st.pragmas ++ ["pragma fullfsync = on"] }
  let st := { st with synchronous := 2, pragmas := st.pragmas ++ ["pragma synchronous = 2"] }
  match upgrade o args EXPECTED_VERSION st with
  | .error f s => .error f s
  | .ok () s =>
    match set_journal_mode o "wal" s with
    | .error f s2 => .error (unwrapFail f) s2
    | .ok () s2 =>
      if !args.flag_no_vacuum then
        .ok () { s2 with
          pragmas := s2.pragmas ++ ["pragma page_size = 16384"],
          pageSize := 16384,
          vacuumCount := s2.vacuumCount + 1 }
      else
        .ok () s2

/-- `[a, a+1, …, a+n-1]` as integers. -/
def intRangeAux (a : Int) : Nat → List Int
  | 0 => []
  | n + 1 => a :: intRangeAux (a + 1) n

/-- The half-open integer interval `[a, b)`. -/
def intRange (a b : Int) : List Int := intRangeAux a (b - a).toNat

/-- The `id` column of a version table. -/
def idsOf (rows : List VersionRow) : List Int := rows.map (·.id)

/-- The rows the loop appends for versions `[a, a+n)`: row `v+1` for each. -/
def stepRows (o : Oracle) (a : Int) (n : Nat) : List VersionRow :=
  (intRangeAux a n).map (fun v => ⟨v + 1, o.now v, UPGRADE_NOTES o⟩)

lemma intRangeAux_append (m : Nat) : ∀ (a : Int) (n : Nat),
    intRangeAux a (m + n) = intRangeAux a m ++ intRangeAux (a + m) n := by
  induction m with
  | zero => intro a n; simp [intRangeAux]
  | succ m ih =>
    intro a n
    have h1 : m + 1 + n = (m + n) + 1 := by omega
    rw [h1]
    show a :: intRangeAux (a + 1) (m + n) = (a :: intRangeAux (a + 1) m) ++ intRangeAux (a + (m + 1)) n
    rw [List.cons_append, ih (a + 1) n]
    have h2 : (a + 1) + (m : Int) = a + ((m : Nat) + 1 : Nat) := by push_cast; ring
    rw [h2]
    norm_cast

lemma intRangeAux_map_succ (n : Nat) : ∀ (a : Int),
    (intRangeAux a n).map (fun v => v + 1) = intRangeAux (a + 1) n := by
  induction n with
  | zero => intro a; rfl
  | succ n ih => intro a; show (a + 1) :: _ = (a + 1) :: _; rw [ih (a + 1)]

lemma idsOf_append (xs ys : List VersionRow) :
    idsOf (xs ++ ys) = idsOf xs ++ idsOf ys := List.map_append _ _ _

lemma idsOf_stepRows (o : Oracle) (a : Int) (n : Nat) :
    idsOf (stepRows o a n) = intRangeAux (a + 1) n := by
  unfold stepRows idsOf
  rw [List.map_map]
  exact intRangeAux_map_succ n a

lemma foldl_max_intRangeAux (n : Nat) : ∀ (a x : Int), x ≤ a →
    (intRangeAux a (n + 1)).foldl max x = a + n := by
  induction n with
  | zero =>
    intro a x h
    show max x a = a + 0
    rw [max_eq_right h]; ring
  | succ n ih =>
    intro a x h
    show (intRangeAux (a + 1) (n + 1)).foldl max (max x a) = a + ((n : Nat) + 1 : Nat)
    rw [max_eq_right h, ih (a + 1) a (by omega)]
    push_cast; ring

lemma maxId_of_contiguous (rows : List VersionRow) (old : Int) (hold : 0 ≤ old)
    (h : idsOf rows = intRange 0 (old + 1)) : maxId rows = some old := by
  have hmax : maxId rows = (idsOf rows).max? := rfl
  rw [hmax, h]
  unfold intRange
  have ht : (old + 1 - 0).toNat = old.toNat + 1 := by omega
  rw [ht]
  show (0 :: intRangeAux 1 old.toNat).max? = some old
  cases hcase : old.toNat with
  | zero =>
    have : old = 0 := by omega
    subst this
    rfl
  | succ m =>
    show some ((intRangeAux 1 (m + 1)).foldl max 0) = some old
    rw [foldl_max_intRangeAux m 1 0 (by omega)]
    congr 1
    omega

lemma usizeOfI32_eq_toNat (v : Int) (h0 : 0 ≤ v) (h5 : v < 5) :
    usizeOfI32 v = v.toNat := by
  unfold usizeOfI32; omega

lemma upgraders_getElem (o : Oracle) (i : Nat) (h : i < 5) :
    (upgraders o)[i]? = some (mkStep o i) := by
  interval_cases i <;> rfl

lemma stepRows_succ (o : Oracle) (a : Int) (n : Nat) :
    stepRows o a (n + 1) = ⟨a + 1, o.now a, UPGRADE_NOTES o⟩ :: stepRows o (a + 1) n := rfl

lemma upgradeLoop_ok (o : Oracle) (args : Args) :
    ∀ (n : Nat) (ver : Int) (st : DbState),
      0 ≤ ver → ver.toNat + n ≤ 5 →
      (∀ i : Nat, ver.toNat ≤ i → i < ver.toNat + n → o.stepOk i = true) →
      ∃ s, upgradeLoop o args ver n st = .ok () s ∧
        s.version = st.version ++ stepRows o ver n ∧
        s.txs = st.txs + n ∧
        s.foreignKeys = st.foreignKeys ∧ s.fullfsync = st.fullfsync ∧
        s.synchronous = st.synchronous ∧ s.journalMode = st.journalMode ∧
        s.pageSize = st.pageSize ∧ s.vacuumCount = st.vacuumCount ∧
        s.pragmas = st.pragmas ∧ s.journalLog = st.journalLog ∧
        (st.schemaVer = ver → s.schemaVer = ver + n) := by
  intro n
  induction n with
  | zero =>
    intro ver st _ _ _
    exact ⟨st, rfl, by simp [stepRows, intRangeAux], by simp, rfl, rfl, rfl, rfl, rfl, rfl,
      rfl, rfl, fun h => by simpa using h⟩
  | succ n ih =>
    intro ver st h0 hle hsteps
    have hv5 : ver.toNat < 5 := by omega
    have hidx := upgraders_getElem o ver.toNat hv5
    have hok := hsteps ver.toNat (by omega) (by omega)
    have hstep : upgradeLoop o args ver (n + 1) st =
        upgradeLoop o args (ver + 1) n
          { st with txs := st.txs + 1,
                    schemaVer := ((ver.toNat + 1 : Nat) : Int),
                    version := st.version ++ [⟨ver + 1, o.now ver, UPGRADE_NOTES o⟩] } := by
      simp [upgradeLoop, stepTx, usizeOfI32_eq_toNat ver h0 (by omega), hidx, mkStep, hok]
    obtain ⟨s, hs, hver, htxs, hfk, hff, hsy, hjm, hps, hvc, hpr, hjl, hsv⟩ :=
      ih (ver + 1)
        { st with txs := st.txs + 1,
                  schemaVer := ((ver.toNat + 1 : Nat) : Int),
                  version := st.version ++ [⟨ver + 1, o.now ver, UPGRADE_NOTES o⟩] }
        (by omega) (by omega)
        (by intro i hi1 hi2; exact hsteps i (by omega) (by omega))
    refine ⟨s, hstep ▸ hs, ?_, by simp at htxs; omega, hfk, hff, hsy, hjm, hps, hvc, hpr, hjl, ?_⟩
    · rw [hver]
      simp only [List.append_assoc]
      rw [stepRows_succ]
      rfl
    · intro _
      have : ((ver.toNat + 1 : Nat) : Int) = ver + 1 := by omega
      have h2 := hsv (by simpa using this)
      omega

lemma upgradeLoop_fail (o : Oracle) (args : Args) (k : Nat)
    (hk : o.stepOk k = false)
    (hprev : ∀ i : Nat, i < k → o.stepOk i = true) :
    ∀ (n : Nat) (ver : Int) (st : DbState),
      0 ≤ ver → ver.toNat + n ≤ 5 →
      ver.toNat ≤ k → k < ver.toNat + n →
      ∃ s, upgradeLoop o args ver n st = .error (.err (.stepFailure (((k : Nat) : Int)))) s ∧
        s.version = st.version ++ stepRows o ver (k - ver.toNat) ∧
        s.txs = st.txs + (k - ver.toNat) + 1 ∧
        s.foreignKeys = st.foreignKeys ∧ s.fullfsync = st.fullfsync ∧
        s.synchronous = st.synchronous ∧ s.journalMode = st.journalMode ∧
        s.pageSize = st.pageSize ∧ s.vacuumCount = st.vacuumCount ∧
        s.pragmas = st.pragmas ∧ s.journalLog = st.journalLog ∧
        (st.schemaVer = ver → s.schemaVer = ((k : Nat) : Int)) := by
  intro n
  induction n with
  | zero => intro ver st _ _ _ hlt; omega
  | succ n ih =>
    intro ver st h0 hle hlo hhi
    have hv5 : ver.toNat < 5 := by omega
    have hidx := upgraders_getElem o ver.toNat hv5
    by_cases hcase : ver.toNat = k
    · subst hcase
      refine ⟨{ st with txs := st.txs + 1 }, ?_, ?_, by simp, rfl, rfl, rfl, rfl, rfl, rfl,
        rfl, rfl, ?_⟩
      · simp [upgradeLoop, stepTx, usizeOfI32_eq_toNat ver h0 (by omega), hidx, mkStep, hk]
      · simp [stepRows, intRangeAux]
      · intro h; rw [h]; omega
    · have hok := hprev ver.toNat (by omega)
      have hstep : upgradeLoop o args ver (n + 1) st =
          upgradeLoop o args (ver + 1) n
            { st with txs := st.txs + 1,
                      schemaVer := ((ver.toNat + 1 : Nat) : Int),
                      version := st.version ++ [⟨ver + 1, o.now ver, UPGRADE_NOTES o⟩] } := by
        simp [upgradeLoop, stepTx, usizeOfI32_eq_toNat ver h0 (by omega), hidx, mkStep, hok]
      obtain ⟨s, hs, hver, htxs, hfk, hff, hsy, hjm, hps, hvc, hpr, hjl, hsv⟩ :=
        ih (ver + 1)
          { st with txs := st.txs + 1,
                    schemaVer := ((ver.toNat + 1 : Nat) : Int),
                    version := st.version ++ [⟨ver + 1, o.now ver, UPGRADE_NOTES o⟩] }
          (by omega) (by omega) (by omega) (by omega)
      refine ⟨s, hstep ▸ hs, ?_, by simp at htxs; omega, hfk, hff, hsy, hjm, hps, hvc, hpr,
        hjl, ?_⟩
      · rw [hver]
        simp only [List.append_assoc]
        have hm : k - ver.toNat = (k - ver.toNat - 1) + 1 := by omega
        rw [hm, stepRows_succ]
        have : k - (ver + 1).toNat = k - ver.toNat - 1 := by omega
        rw [this] at hver ⊢
        rfl
      · intro _
        have : ((ver.toNat + 1 : Nat) : Int) = ver + 1 := by omega
        exact hsv (by simpa using this)

lemma upgraders_length (o : Oracle) : (upgraders o).length = EXPECTED_VERSION.toNat := rfl

lemma set_journal_mode_ok (o : Oracle) (req : String) (st : DbState)
    (hsemi : req.data.contains ';' = false) :
    set_journal_mode o req st = .ok () { st with
      pragmas := st.pragmas ++ ["pragma journal_mode = " ++ req],
      journalMode := o.grant req,
      journalLog := st.journalLog ++ [(o.grant req, req)] } := by
  unfold set_journal_mode
  rw [hsemi]
  rfl

lemma upgrade_validated (o : Oracle) (args : Args) (st : DbState) (old target : Int)
    (hmax : maxId st.version = some old) (h0 : 0 ≤ old) (hle : old ≤ EXPECTED_VERSION) :
    upgrade o args target st =
      match set_journal_mode o args.flag_preset_journal st with
      | .error f s => .error (unwrapFail f) s
      | .ok () s => upgradeLoop o args old (target - old).toNat s := by
  unfold upgrade
  rw [if_neg (by rw [upgraders_length]; exact fun h => h rfl), hmax]
  have h1 : ¬ (old > EXPECTED_VERSION) := by omega
  have h2 : ¬ (old < 0) := by omega
  simp only [h1, if_false, h2, if_neg]

lemma upgrade_ok (o : Oracle) (args : Args) (st : DbState) (old target : Int)
    (hmax : maxId st.version = some old)
    (h0 : 0 ≤ old) (hle : old ≤ target) (htar : target ≤ EXPECTED_VERSION)
    (hsemi : args.flag_preset_journal.data.contains ';' = false)
    (hsteps : ∀ i : Nat, old.toNat ≤ i → i < target.toNat → o.stepOk i = true) :
    ∃ s, upgrade o args target st = .ok () s ∧
      s.version = st.version ++ stepRows o old (target - old).toNat ∧
      s.txs = st.txs + (target - old).toNat ∧
      s.foreignKeys = st.foreignKeys ∧ s.fullfsync = st.fullfsync ∧
      s.synchronous = st.synchronous ∧
      s.journalMode = o.grant args.flag_preset_journal ∧
      s.pageSize = st.pageSize ∧ s.vacuumCount = st.vacuumCount ∧
      s.pragmas = st.pragmas ++ ["pragma journal_mode = " ++ args.flag_preset_journal] ∧
      s.journalLog = st.journalLog ++
        [(o.grant args.flag_preset_journal, args.flag_preset_journal)] ∧
      (st.schemaVer = old → s.schemaVer = old + ((target - old).toNat : Int)) := by
  have htar5 : target ≤ (5 : Int) := htar
  have e1 := upgrade_validated o args st old target hmax h0 (le_trans hle htar)
  rw [set_journal_mode_ok o _ st hsemi] at e1
  obtain ⟨s, hs, hver, htxs, hfk, hff, hsy, hjm, hps, hvc, hpr, hjl, hsv⟩ :=
    upgradeLoop_ok o args (target - old).toNat old
      { st with
        pragmas := st.pragmas ++ ["pragma journal_mode = " ++ args.flag_preset_journal],
        journalMode := o.grant args.flag_preset_journal,
        journalLog := st.journalLog ++
          [(o.grant args.flag_preset_journal, args.flag_preset_journal)] }
      h0 (by omega) (fun i h1 h2 => hsteps i h1 (by omega))
  refine ⟨s, by rw [e1]; exact hs, by simpa using hver, by simp at htxs; omega,
    by simpa using hfk, by simpa using hff, by simpa using hsy, by simpa using hjm,
    by simpa using hps, by simpa using hvc, by simpa using hpr, by simpa using hjl, ?_⟩
  intro h
  have := hsv (by simpa using h)
  omega

lemma upgraders_elem_shape (o : Oracle) (i : Nat) (step : Args → DbState → MRes Unit)
    (h : (upgraders o)[i]? = some step) : ∃ j, step = mkStep o j := by
  have hi : i < 5 := by
    by_contra hge
    rw [List.getElem?_eq_none (by simpa [upgraders] using Nat.le_of_not_lt hge)] at h
    exact Option.noConfusion h
  interval_cases i <;> simp [upgraders] at h <;> exact ⟨_, h.symm⟩

lemma stepTx_error_shape (o : Oracle) (args : Args) (ver : Int) (st : DbState)
    (f : Fail) (s : DbState) (h : stepTx o args ver st = .error f s) :
    (∃ v, f = .err (.stepFailure v)) ∨ (∃ m, f = .panicked m) := by
  unfold stepTx at h
  cases hidx : (upgraders o)[usizeOfI32 ver]? with
  | none =>
    rw [hidx] at h
    exact Or.inr ⟨_, (MRes.error.injEq _ _ _ _).mp h |>.1.symm⟩
  | some step =>
    obtain ⟨j, rfl⟩ := upgraders_elem_shape o _ step hidx
    rw [hidx] at h
    by_cases hok : o.stepOk j
    · simp [mkStep, hok] at h
    · simp only [mkStep, hok, if_false, Bool.false_eq_true] at h
      exact Or.inl ⟨_, ((MRes.error.injEq _ _ _ _).mp h).1.symm⟩

lemma upgradeLoop_error_shape (o : Oracle) (args : Args) :
    ∀ (n : Nat) (ver : Int) (st : DbState) (f : Fail) (s : DbState),
      upgradeLoop o args ver n st = .error f s →
      (∃ v, f = .err (.stepFailure v)) ∨ (∃ m, f = .panicked m) := by
  intro n
  induction n with
  | zero => intro ver st f s h; exact absurd h (by simp [upgradeLoop])
  | succ n ih =>
    intro ver st f s h
    unfold upgradeLoop at h
    cases hstep : stepTx o args ver st with
    | error f' s' =>
      rw [hstep] at h
      obtain ⟨rfl, rfl⟩ := (MRes.error.injEq _ _ _ _).mp h
      exact stepTx_error_shape o args ver st f' s' hstep
    | ok a s' =>
      rw [hstep] at h
      exact ih (ver + 1) s' f s h

/-- The list of pragma statements `run` issues before calling `upgrade`. -/
def durabilityPragmas : List String :=
  ["pragma foreign_keys = on", "pragma fullfsync = on", "pragma synchronous = 2"]

/-- The connection state after `run`'s three initial pragma statements. -/
def withDurability (st : DbState) : DbState :=
  { st with foreignKeys := true, fullfsync := true, synchronous := 2,
            pragmas := ((st.pragmas ++ ["pragma foreign_keys = on"]) ++
              ["pragma fullfsync = on"]) ++ ["pragma synchronous = 2"] }

@[simp] lemma withDurability_version (st : DbState) : (withDurability st).version = st.version := rfl

@[simp] lemma withDurability_schemaVer (st : DbState) : (withDurability st).schemaVer = st.schemaVer := rfl

@[simp] lemma withDurability_foreignKeys (st : DbState) : (withDurability st).foreignKeys = true := rfl

@[simp] lemma withDurability_fullfsync (st : DbState) : (withDurability st).fullfsync = true := rfl

@[simp] lemma withDurability_synchronous (st : DbState) : (withDurability st).synchronous = 2 := rfl

@[simp] lemma withDurability_journalMode (st : DbState) : (withDurability st).journalMode = st.journalMode := rfl

@[simp] lemma withDurability_pageSize (st : DbState) : (withDurability st).pageSize = st.pageSize := rfl

@[simp] lemma withDurability_vacuumCount (st : DbState) : (withDurability st).vacuumCount = st.vacuumCount := rfl

@[simp] lemma withDurability_txs (st : DbState) : (withDurability st).txs = st.txs := rfl

@[simp] lemma withDurability_journalLog (st : DbState) : (withDurability st).journalLog = st.journalLog := rfl

@[simp] lemma withDurability_pragmas (st : DbState) :
    (withDurability st).pragmas = st.pragmas ++ durabilityPragmas := by
  simp [withDurability, durabilityPragmas]

lemma run_unfold (o : Oracle) (args : Args) (st : DbState) :
    run o args st =
      (match upgrade o args EXPECTED_VERSION (withDurability st) with
      | .error f s => .error f s
      | .ok () s =>
        match set_journal_mode o "wal" s with
        | .error f s2 => .error (unwrapFail f) s2
        | .ok () s2 =>
          if !args.flag_no_vacuum then
            .ok () { s2 with
              pragmas := s2.pragmas ++ ["pragma page_size = 16384"],
              pageSize := 16384,
              vacuumCount := s2.vacuumCount + 1 }
          else
            .ok () s2) := rfl

lemma intRange_zero_append (old : Int) (h0 : 0 ≤ old) (m : Nat) :
    intRange 0 (old + 1) ++ intRangeAux (old + 1) m = intRange 0 (old + 1 + m) := by
  unfold intRange
  have h1 : (old + 1 - 0).toNat = old.toNat + 1 := by omega
  have h2 : (old + 1 + m - 0).toNat = (old.toNat + 1) + m := by omega
  rw [h1, h2, intRangeAux_append (old.toNat + 1) 0 m]
  have h3 : ((0 : Int) + ((old.toNat + 1 : Nat) : Int)) = old + 1 := by push_cast; omega
  rw [h3]

lemma run_ok (o : Oracle) (args : Args) (st : DbState) (old : Int)
    (hmax : maxId st.version = some old) (h0 : 0 ≤ old) (hle : old ≤ EXPECTED_VERSION)
    (hsemi : args.flag_preset_journal.data.contains ';' = false)
    (hsteps : ∀ i : Nat, old.toNat ≤ i → i < EXPECTED_VERSION.toNat → o.stepOk i = true) :
    ∃ s, run o args st = .ok () s ∧
      s.version = st.version ++ stepRows o old (EXPECTED_VERSION - old).toNat ∧
      s.txs = st.txs + (EXPECTED_VERSION - old).toNat ∧
      s.foreignKeys = true ∧ s.fullfsync = true ∧ s.synchronous = 2 ∧
      s.journalMode = o.grant "wal" ∧
      s.journalLog = st.journalLog ++
        [(o.grant args.flag_preset_journal, args.flag_preset_journal),
         (o.grant "wal", "wal")] ∧
      s.pragmas = st.pragmas ++ durabilityPragmas ++
        ["pragma journal_mode = " ++ args.flag_preset_journal, "pragma journal_mode = wal"] ++
        (if args.flag_no_vacuum then [] else ["pragma page_size = 16384"]) ∧
      s.pageSize = (if args.flag_no_vacuum then st.pageSize else 16384) ∧
      s.vacuumCount = (if args.flag_no_vacuum then st.vacuumCount else st.vacuumCount + 1) ∧
      (st.schemaVer = old →
        s.schemaVer = old + ((EXPECTED_VERSION - old).toNat : Int)) := by
  rw [run_unfold]
  obtain ⟨s1, hs1, hver, htxs, hfk, hff, hsy, hjm, hps, hvc, hpr, hjl, hsv⟩ :=
    upgrade_ok o args (withDurability st)
      old EXPECTED_VERSION hmax h0 hle (le_refl _) hsemi hsteps
  rw [hs1]
  simp only []
  rw [set_journal_mode_ok o "wal" s1 (by decide)]
  simp only [withDurability_version, withDurability_schemaVer, withDurability_foreignKeys,
    withDurability_fullfsync, withDurability_synchronous, withDurability_journalMode,
    withDurability_pageSize, withDurability_vacuumCount, withDurability_txs,
    withDurability_journalLog, withDurability_pragmas] at hver htxs hfk hff hsy hjm hps hvc hpr hjl hsv
  cases hnv : args.flag_no_vacuum with
  | false =>
    refine ⟨_, rfl, ?_, ?_, ?_, ?_, ?_, ?_, ?_, ?_, ?_, ?_, ?_⟩ <;>
      simp [hver, htxs, hfk, hff, hsy, hjm, hjl, hps, hvc, hpr, durabilityPragmas]
    intro h
    have := hsv h
    omega
  | true =>
    refine ⟨_, rfl, ?_, ?_, ?_, ?_, ?_, ?_, ?_, ?_, ?_, ?_, ?_⟩ <;>
      simp [hver, htxs, hfk, hff, hsy, hjm, hjl, hps, hvc, hpr, durabilityPragmas]
    intro h
    have := hsv h
    omega

lemma run_validation_fail (o : Oracle) (args : Args) (st : DbState) (old : Int)
    (hmax : maxId st.version = some old)
    (hbad : EXPECTED_VERSION < old ∨ old < 0) :
    run o args st =
      .error (.err (if EXPECTED_VERSION < old then .versionOutOfRange old EXPECTED_VERSION
                    else .corruptVersion old))
        (withDurability st) := by
  rw [run_unfold]
  unfold upgrade
  rw [if_neg (by rw [upgraders_length]; exact fun h => h rfl)]
  have hm : maxId (withDurability st).version = some old := by
    rw [withDurability_version]; exact hmax
  rw [hm]
  simp only []
  rcases hbad with h | h
  · rw [if_pos h, if_pos h]
  · have h5 : ¬ (old > EXPECTED_VERSION) := by
      have hE : (0 : Int) ≤ EXPECTED_VERSION := by decide
      omega
    rw [if_neg h5, if_pos h, if_neg h5]

lemma upgrade_out_of_range (o : Oracle) (args : Args) (st : DbState) (old target : Int)
    (hmax : maxId st.version = some old) (hgt : EXPECTED_VERSION < old) :
    upgrade o args target st =
      .error (.err (.versionOutOfRange old EXPECTED_VERSION)) st := by
  unfold upgrade
  rw [if_neg (by rw [upgraders_length]; exact fun h => h rfl), hmax]
  simp only []
  rw [if_pos hgt]

lemma upgrade_negative (o : Oracle) (args : Args) (st : DbState) (old target : Int)
    (hmax : maxId st.version = some old) (hneg : old < 0) :
    upgrade o args target st = .error (.err (.corruptVersion old)) st := by
  unfold upgrade
  rw [if_neg (by rw [upgraders_length]; exact fun h => h rfl), hmax]
  simp only []
  have h5 : ¬ (old > EXPECTED_VERSION) := by
    have hE : (0 : Int) ≤ EXPECTED_VERSION := by decide
    omega
  rw [if_neg h5, if_pos hneg]

lemma set_journal_mode_error_shape (o : Oracle) (req : String) (st : DbState)
    (f : Fail) (s : DbState) (h : set_journal_mode o req st = .error f s) :
    ∃ m, f = .panicked m := by
  unfold set_journal_mode at h
  by_cases hc : req.data.contains ';' = true
  · rw [if_pos hc] at h
    exact ⟨_, ((MRes.error.injEq _ _ _ _).mp h).1.symm⟩
  · rw [if_neg hc] at h
    exact absurd h (by simp)

lemma upgrade_inrange_error_shape (o : Oracle) (args : Args) (st : DbState) (old target : Int)
    (hmax : maxId st.version = some old) (h0 : 0 ≤ old) (hle : old ≤ EXPECTED_VERSION)
    (f : Fail) (s : DbState) (h : upgrade o args target st = .error f s) :
    (∃ v, f = .err (.stepFailure v)) ∨ (∃ m, f = .panicked m) := by
  rw [upgrade_validated o args st old target hmax h0 hle] at h
  cases hj : set_journal_mode o args.flag_preset_journal st with
  | error f' s' =>
    rw [hj] at h
    obtain ⟨m, rfl⟩ := set_journal_mode_error_shape o _ st f' s' hj
    obtain ⟨rfl, rfl⟩ := (MRes.error.injEq _ _ _ _).mp h
    exact Or.inr ⟨m, rfl⟩
  | ok a s' =>
    cases a
    rw [hj] at h
    exact upgradeLoop_error_shape o args _ old s' f s h

lemma upgrade_step_fail (o : Oracle) (args : Args) (st : DbState) (old target : Int) (k : Nat)
    (hmax : maxId st.version = some old)
    (h0 : 0 ≤ old) (hle : old ≤ target) (htar : target ≤ EXPECTED_VERSION)
    (hsemi : args.flag_preset_journal.data.contains ';' = false)
    (hk : o.stepOk k = false)
    (hprev : ∀ i : Nat, i < k → o.stepOk i = true)
    (hklo : old ≤ (k : Int)) (hkhi : (k : Int) < target) :
    ∃ s, upgrade o args target st = .error (.err (.stepFailure (k : Int))) s ∧
      s.version = st.version ++ stepRows o old (k - old.toNat) ∧
      s.txs = st.txs + (k - old.toNat) + 1 ∧
      s.pragmas = st.pragmas ++ ["pragma journal_mode = " ++ args.flag_preset_journal] ∧
      (st.schemaVer = old → s.schemaVer = (k : Int)) := by
  have htar5 : target ≤ (5 : Int) := htar
  have e1 := upgrade_validated o args st old target hmax h0 (le_trans hle htar)
  rw [set_journal_mode_ok o _ st hsemi] at e1
  obtain ⟨s, hs, hver, htxs, hfk, hff, hsy, hjm, hps, hvc, hpr, hjl, hsv⟩ :=
    upgradeLoop_fail o args k hk hprev (target - old).toNat old
      { st with
        pragmas := st.pragmas ++ ["pragma journal_mode = " ++ args.flag_preset_journal],
        journalMode := o.grant args.flag_preset_journal,
        journalLog := st.journalLog ++
          [(o.grant args.flag_preset_journal, args.flag_preset_journal)] }
      h0 (by omega) (by omega) (by omega)
  refine ⟨s, by rw [e1]; exact hs, by simpa using hver, by simp at htxs; omega,
    by simpa using hpr, ?_⟩
  intro h
  exact hsv (by simpa using h)

/-- An engine that always grants the requested journal mode, with all step
handlers succeeding. -/
def oracleId : Oracle :=
  { grant := fun r => r, stepOk := fun _ => true,
    now := fun v => 1700000000 + v, pkgVersion := "0.6.0" }

/-- An engine granting the requested mode whose step handler 2 fails. -/
def oracleFail2 : Oracle := { oracleId with stepOk := fun i => i != 2 }

/-- An engine that grants "wal" regardless of the requested mode. -/
def oracleGrantWal : Oracle := { oracleId with grant := fun _ => "wal" }

/-- Default command-line arguments: journal preset "delete", vacuum on. -/
def argsDefault : Args :=
  { flag_sample_file_dir := none, flag_preset_journal := "delete",
    flag_no_vacuum := false }

/-- A fresh version-0 database (one version row, id 0). -/
def db0 : DbState :=
  { version := [⟨0, 0, "init"⟩], schemaVer := 0, foreignKeys := false,
    fullfsync := false, synchronous := 0, journalMode := "delete",
    pageSize := 4096, vacuumCount := 0, pragmas := [], txs := 0,
    journalLog := [] }

/-- A fully upgraded database (version rows 0..5). -/
def db5 : DbState :=
  { db0 with
    version := [⟨0, 0, "i"⟩, ⟨1, 0, "i"⟩, ⟨2, 0, "i"⟩, ⟨3, 0, "i"⟩, ⟨4, 0, "i"⟩, ⟨5, 0, "i"⟩],
    schemaVer := 5 }

/-- A database claiming a future version 6 (> EXPECTED_VERSION). -/
def db6 : DbState := { db0 with version := [⟨6, 0, "future"⟩], schemaVer := 6 }

/-- C1: for every starting version `old` in `[0, target]` (with the version
log contiguous from 0 up to `old`), the step runner iterates
`v = old, old+1, …, target-1` in strictly increasing order with no gaps:
for each `v` it opens one transaction, runs step `v`, and commits with a
version-log row `id = v+1` carrying a wall-clock timestamp and the
build-identifying note (`stepRows` is exactly that row sequence), so the
log stays contiguous from 0 and `max(id)` advances by one per step. -/
theorem upgrade_steps_contiguous (o : Oracle) (args : Args) (st : DbState) (old target : Int)
    (h0 : 0 ≤ old) (hle : old ≤ target) (htar : target ≤ EXPECTED_VERSION)
    (hids : idsOf st.version = intRange 0 (old + 1)) (hschema : st.schemaVer = old)
    (hsteps : ∀ i : Nat, o.stepOk i = true)
    (hsemi : args.flag_preset_journal.data.contains ';' = false) :
    ∃ s, upgrade o args target st = .ok () s ∧
      s.version = st.version ++ stepRows o old (target - old).toNat ∧
      idsOf s.version = intRange 0 (target + 1) ∧
      s.txs = st.txs + (target - old).toNat ∧
      s.schemaVer = target := by
  have hmax := maxId_of_contiguous st.version old h0 hids
  obtain ⟨s, hs, hver, htxs, _, _, _, _, _, _, _, _, hsv⟩ :=
    upgrade_ok o args st old target hmax h0 hle htar hsemi (fun i _ _ => hsteps i)
  have htar5 : target ≤ (5 : Int) := htar
  refine ⟨s, hs, hver, ?_, htxs, ?_⟩
  · rw [hver, idsOf_append, hids, idsOf_stepRows, intRange_zero_append old h0]
    congr 1
    omega
  · have := hsv hschema
    omega

/-- Witness for C1: a fresh version-0 database upgraded to 5. -/
theorem upgrade_steps_contiguous_witness :
    ∃ s, upgrade oracleId argsDefault 5 db0 = .ok () s ∧
      s.version = db0.version ++ stepRows oracleId 0 ((5 : Int) - 0).toNat ∧
      idsOf s.version = intRange 0 (5 + 1) ∧
      s.txs = db0.txs + ((5 : Int) - 0).toNat ∧
      s.schemaVer = 5 :=
  upgrade_steps_contiguous oracleId argsDefault db0 0 5 (by decide) (by decide) (by decide)
    (by decide) rfl (fun _ => rfl) (by decide)

/-- C2: if step `k` fails (all earlier steps succeeding), `upgrade` aborts
immediately with that step's error: the failing transaction rolls back in
full (the log still ends at id `k`, with no row `k+1`; the schema stays at
version `k`), and no step for any later version runs (exactly
`k - old + 1` transactions were opened). -/
theorem upgrade_step_failure_rolls_back (o : Oracle) (args : Args) (st : DbState)
    (old target : Int) (k : Nat)
    (h0 : 0 ≤ old) (hle : old ≤ target) (htar : target ≤ EXPECTED_VERSION)
    (hids : idsOf st.version = intRange 0 (old + 1)) (hschema : st.schemaVer = old)
    (hk : o.stepOk k = false) (hprev : ∀ i : Nat, i < k → o.stepOk i = true)
    (hklo : old ≤ (k : Int)) (hkhi : (k : Int) < target)
    (hsemi : args.flag_preset_journal.data.contains ';' = false) :
    ∃ s, upgrade o args target st = .error (.err (.stepFailure (k : Int))) s ∧
      idsOf s.version = intRange 0 ((k : Int) + 1) ∧
      maxId s.version = some (k : Int) ∧
      s.schemaVer = (k : Int) ∧
      s.txs = st.txs + (k - old.toNat) + 1 := by
  have hmax := maxId_of_contiguous st.version old h0 hids
  obtain ⟨s, hs, hver, htxs, hpr, hsv⟩ :=
    upgrade_step_fail o args st old target k hmax h0 hle htar hsemi hk hprev hklo hkhi
  have hidss : idsOf s.version = intRange 0 ((k : Int) + 1) := by
    rw [hver, idsOf_append, hids, idsOf_stepRows, intRange_zero_append old h0]
    congr 1
    omega
  exact ⟨s, hs, hidss, maxId_of_contiguous s.version (k : Int) (by omega) hidss,
    hsv hschema, htxs⟩

/-- Witness for C2: step 2 fails while upgrading a version-0 database; the
run aborts at step 2 with the log ending at id 2 and three transactions. -/
theorem upgrade_step_failure_rolls_back_witness :
    ∃ s, upgrade oracleFail2 argsDefault 5 db0 =
        .error (.err (.stepFailure ((2 : Nat) : Int))) s ∧
      idsOf s.version = intRange 0 (((2 : Nat) : Int) + 1) ∧
      maxId s.version = some ((2 : Nat) : Int) ∧
      s.schemaVer = ((2 : Nat) : Int) ∧
      s.txs = db0.txs + (2 - (0 : Int).toNat) + 1 :=
  upgrade_step_failure_rolls_back oracleFail2 argsDefault db0 0 5 2 (by decide) (by decide)
    (by decide) (by decide) rfl rfl (by decide) (by decide) (by decide) (by decide)

/-- C3 counterexample: on a database at version 6 (out of range), `run`
does fail with the out-of-range error, but only after its three durability
pragma statements have already executed on the connection — the pragma
trace of the failing run is `durabilityPragmas`, not the empty trace it
started with. So validation does not happen before every pragma. -/
theorem run_pragmas_precede_validation_cex :
    run oracleId argsDefault db6 =
      .error (.err (.versionOutOfRange 6 5)) (withDurability db6) ∧
    (withDurability db6).pragmas = durabilityPragmas ∧
    db6.pragmas = [] ∧ durabilityPragmas ≠ [] := by
  refine ⟨?_, by decide, by decide, by decide⟩
  decide

/-- C3 amended: when the observed version is out of range (above the
expected version, or negative), `run` fails before any transaction is
opened and before any journal-mode pragma or version-log write — the only
side effects on the connection are the three initial durability pragmas,
which `run` executes before validation. -/
theorem run_validation_before_transactions (o : Oracle) (args : Args) (st : DbState)
    (old : Int) (hmax : maxId st.version = some old)
    (hbad : EXPECTED_VERSION < old ∨ old < 0) :
    ∃ e s, run o args st = .error (.err e) s ∧
      s.txs = st.txs ∧ s.version = st.version ∧ s.schemaVer = st.schemaVer ∧
      s.journalMode = st.journalMode ∧ s.journalLog = st.journalLog ∧
      s.pragmas = st.pragmas ++ durabilityPragmas :=
  ⟨_, _, run_validation_fail o args st old hmax hbad, rfl, rfl, rfl, rfl, rfl,
    withDurability_pragmas st⟩

/-- Witness for C3 amended: the version-6 database. -/
theorem run_validation_before_transactions_witness :
    ∃ e s, run oracleId argsDefault db6 = .error (.err e) s ∧
      s.txs = db6.txs ∧ s.version = db6.version ∧ s.schemaVer = db6.schemaVer ∧
      s.journalMode = db6.journalMode ∧ s.journalLog = db6.journalLog ∧
      s.pragmas = db6.pragmas ++ durabilityPragmas :=
  run_validation_before_transactions oracleId argsDefault db6 6 (by decide)
    (Or.inl (by decide))

/-- C4: with the observed version `old` (the log's max id), `upgrade` at
target `EXPECTED_VERSION` fails with the out-of-range error exactly when
`old > EXPECTED_VERSION`, fails with the corrupt-version error exactly
when `old < 0`, and otherwise proceeds into the journal-mode pragma and
the step loop over exactly the range `[old, EXPECTED_VERSION)`. -/
theorem upgrade_version_validator (o : Oracle) (args : Args) (st : DbState) (old : Int)
    (hmax : maxId st.version = some old) :
    (upgrade o args EXPECTED_VERSION st =
        .error (.err (.versionOutOfRange old EXPECTED_VERSION)) st ↔
      EXPECTED_VERSION < old) ∧
    (upgrade o args EXPECTED_VERSION st =
        .error (.err (.corruptVersion old)) st ↔ old < 0) ∧
    (0 ≤ old → old ≤ EXPECTED_VERSION →
      upgrade o args EXPECTED_VERSION st =
        match set_journal_mode o args.flag_preset_journal st with
        | .error f s => .error (unwrapFail f) s
        | .ok () s => upgradeLoop o args old (EXPECTED_VERSION - old).toNat s) := by
  have hE : (0 : Int) ≤ EXPECTED_VERSION := by decide
  by_cases hgt : EXPECTED_VERSION < old
  · have heq := upgrade_out_of_range o args st old EXPECTED_VERSION hmax hgt
    refine ⟨⟨fun _ => hgt, fun _ => heq⟩, ⟨fun hc => ?_, fun hneg => absurd hneg (by omega)⟩,
      fun _ hle => absurd hgt (by omega)⟩
    rw [heq] at hc
    simp at hc
  · by_cases hneg : old < 0
    · have heq := upgrade_negative o args st old EXPECTED_VERSION hmax hneg
      refine ⟨⟨fun hc => ?_, fun h => absurd h hgt⟩, ⟨fun _ => hneg, fun _ => heq⟩,
        fun h0 _ => absurd hneg (by omega)⟩
      rw [heq] at hc
      simp at hc
    · have h0 : 0 ≤ old := by omega
      have hle : old ≤ EXPECTED_VERSION := by omega
      have heq := upgrade_validated o args st old EXPECTED_VERSION hmax h0 hle
      refine ⟨⟨fun hc => ?_, fun h => absurd h hgt⟩,
        ⟨fun hc => ?_, fun h => absurd h hneg⟩, fun _ _ => heq⟩
      · rcases upgrade_inrange_error_shape o args st old EXPECTED_VERSION hmax h0 hle _ _ hc
          with ⟨v, hv⟩ | ⟨m, hm⟩
        · simp at hv
        · simp at hm
      · rcases upgrade_inrange_error_shape o args st old EXPECTED_VERSION hmax h0 hle _ _ hc
          with ⟨v, hv⟩ | ⟨m, hm⟩
        · simp at hv
        · simp at hm

/-- Witness for C4: a fresh version-0 database. -/
theorem upgrade_version_validator_witness :
    ((upgrade oracleId argsDefault EXPECTED_VERSION db0 =
        .error (.err (.versionOutOfRange 0 EXPECTED_VERSION)) db0 ↔
      EXPECTED_VERSION < 0) ∧
    (upgrade oracleId argsDefault EXPECTED_VERSION db0 =
        .error (.err (.corruptVersion 0)) db0 ↔ (0 : Int) < 0) ∧
    ((0 : Int) ≤ 0 → (0 : Int) ≤ EXPECTED_VERSION →
      upgrade oracleId argsDefault EXPECTED_VERSION db0 =
        match set_journal_mode oracleId argsDefault.flag_preset_journal db0 with
        | .error f s => .error (unwrapFail f) s
        | .ok () s =>
          upgradeLoop oracleId argsDefault 0 (EXPECTED_VERSION - 0).toNat s)) :=
  upgrade_version_validator oracleId argsDefault db0 0 (by decide)

/-- C5: whenever `run` completes successfully with compaction enabled
(`flag_no_vacuum = false`), on an engine that grants the write-ahead-log
mode when asked, the final journal mode is "wal" and the final page size
is 16384, the value the code configures for the rebuild. -/
theorem run_compaction_final_state (o : Oracle) (args : Args) (st s : DbState)
    (hvac : args.flag_no_vacuum = false)
    (hwal : o.grant "wal" = "wal")
    (hrun : run o args st = .ok () s) :
    s.journalMode = "wal" ∧ s.pageSize = 16384 := by
  rw [run_unfold] at hrun
  cases hupg : upgrade o args EXPECTED_VERSION (withDurability st) with
  | error f s1 =>
    rw [hupg] at hrun
    exact absurd hrun (by simp)
  | ok a s1 =>
    cases a
    rw [hupg] at hrun
    simp only [] at hrun
    rw [set_journal_mode_ok o "wal" s1 (by decide)] at hrun
    simp only [] at hrun
    rw [hvac] at hrun
    obtain ⟨-, rfl⟩ := (MRes.ok.injEq _ _ _ _).mp hrun
    exact ⟨hwal, rfl⟩

/-- The connection state after the witness run for C5. -/
def db5AfterRun : DbState :=
  match run oracleId argsDefault db5 with
  | .ok _ s => s
  | .error _ s => s

/-- Witness for C5: a successful run over an already-current database. -/
theorem run_compaction_final_state_witness :
    db5AfterRun.journalMode = "wal" ∧ db5AfterRun.pageSize = 16384 :=
  run_compaction_final_state oracleId argsDefault db5 db5AfterRun rfl rfl (by decide)

/-- C6: when the observed version equals the target (`EXPECTED_VERSION`),
`run` performs no transaction and appends no version-log row: the step
loop executes zero iterations. -/
theorem run_noop_no_transaction (o : Oracle) (args : Args) (st : DbState)
    (hmax : maxId st.version = some EXPECTED_VERSION)
    (hsemi : args.flag_preset_journal.data.contains ';' = false) :
    ∃ s, run o args st = .ok () s ∧ s.version = st.version ∧ s.txs = st.txs := by
  obtain ⟨s, hs, hver, htxs, -⟩ :=
    run_ok o args st EXPECTED_VERSION hmax (by decide) (le_refl _) hsemi
      (fun i h1 h2 => absurd h2 (Nat.not_lt.mpr h1))
  have h00 : (EXPECTED_VERSION - EXPECTED_VERSION).toNat = 0 := by decide
  refine ⟨s, hs, ?_, ?_⟩
  · rw [hver, h00]
    simp [stepRows, intRangeAux]
  · rw [htxs, h00]
    omega

/-- Witness for C6: a database already at version 5. -/
theorem run_noop_no_transaction_witness :
    ∃ s, run oracleId argsDefault db5 = .ok () s ∧
      s.version = db5.version ∧ s.txs = db5.txs :=
  run_noop_no_transaction oracleId argsDefault db5 (by decide) (by decide)

/-- C7 counterexample: `set_journal_mode` does not return the granted
mode — its success value is `()`, identical across engines that grant
different modes, so no function of the returned value can recover the
granted mode. Two engines granting "delete" and "wal" for the same
request leave different journal modes yet the same return value. -/
theorem set_journal_mode_return_value_cex :
    ¬ ∃ f : Unit → String,
      ∀ g : String → String, ∀ (u : Unit) (s : DbState),
        set_journal_mode
            { grant := g, stepOk := fun _ => true, now := fun _ => 0, pkgVersion := "" }
            "delete" db0 = .ok u s →
        f u = s.journalMode := by
  rintro ⟨f, hf⟩
  have h1 := hf (fun _ => "delete") () _
    (set_journal_mode_ok
      { grant := fun _ => "delete", stepOk := fun _ => true, now := fun _ => 0, pkgVersion := "" }
      "delete" db0 (by decide))
  have h2 := hf (fun _ => "wal") () _
    (set_journal_mode_ok
      { grant := fun _ => "wal", stepOk := fun _ => true, now := fun _ => 0, pkgVersion := "" }
      "delete" db0 (by decide))
  simp only [] at h1 h2
  rw [h1] at h2
  exact absurd h2 (by decide)

/-- C7 amended: `set_journal_mode` returns `Ok(())` — the granted mode is
not its return value; instead the granted mode is surfaced in the log line
(as the pair (actual, requested)), a grant differing from the request is
non-fatal (the call never returns an error for a semicolon-free request),
and the connection is left in the actually-granted mode, which is what
later behavior relies on. -/
theorem set_journal_mode_nonfatal_logs_grant (o : Oracle) (req : String) (st : DbState)
    (hsemi : req.data.contains ';' = false) :
    ∃ s, set_journal_mode o req st = .ok () s ∧
      s.journalMode = o.grant req ∧
      s.journalLog = st.journalLog ++ [(o.grant req, req)] ∧
      ∀ (f : Fail) (s2 : DbState), set_journal_mode o req st ≠ .error f s2 := by
  refine ⟨_, set_journal_mode_ok o req st hsemi, rfl, rfl, ?_⟩
  intro f s2 hc
  rw [set_journal_mode_ok o req st hsemi] at hc
  exact MRes.noConfusion hc

/-- Witness for C7 amended: an engine granting "wal" when "delete" was
requested — the mismatch is logged and non-fatal. -/
theorem set_journal_mode_nonfatal_logs_grant_witness :
    ∃ s, set_journal_mode oracleGrantWal "delete" db0 = .ok () s ∧
      s.journalMode = oracleGrantWal.grant "delete" ∧
      s.journalLog = db0.journalLog ++ [(oracleGrantWal.grant "delete", "delete")] ∧
      ∀ (f : Fail) (s2 : DbState),
        set_journal_mode oracleGrantWal "delete" db0 ≠ .error f s2 :=
  set_journal_mode_nonfatal_logs_grant oracleGrantWal "delete" db0 (by decide)

/-- C8: `set_journal_mode` hits its assertion (a panic, before any pragma
statement is interpolated or issued — the returned state is untouched)
exactly when the requested mode string contains a ';'; for any
semicolon-free string the assertion passes and the journal-mode pragma is
issued on the connection. -/
theorem set_journal_mode_injection_guard (o : Oracle) (req : String) (st : DbState) :
    (set_journal_mode o req st =
        .error (.panicked "assertion failed: journal mode contains a semicolon") st ↔
      req.data.contains ';' = true) ∧
    ((∃ s, set_journal_mode o req st = .ok () s ∧
        s.pragmas = st.pragmas ++ ["pragma journal_mode = " ++ req]) ↔
      req.data.contains ';' = false) := by
  by_cases hc : req.data.contains ';' = true
  · constructor
    · exact ⟨fun _ => hc, fun _ => by unfold set_journal_mode; rw [if_pos hc]⟩
    · constructor
      · rintro ⟨s, hs, -⟩
        unfold set_journal_mode at hs
        rw [if_pos hc] at hs
        exact absurd hs (by simp)
      · intro h
        rw [h] at hc
        exact Bool.noConfusion hc
  · have hc' : req.data.contains ';' = false := by
      cases h : req.data.contains ';'
      · rfl
      · exact absurd h hc
    constructor
    · constructor
      · intro h
        rw [set_journal_mode_ok o req st hc'] at h
        exact absurd h (by simp)
      · intro h
        rw [h] at hc'
        exact Bool.noConfusion hc'
    · exact ⟨fun _ => hc', fun _ => ⟨_, set_journal_mode_ok o req st hc', by simp⟩⟩

/-- Witness for C8: a request carrying a ';' panics with the state
untouched; the plain request "wal" is issued. -/
theorem set_journal_mode_injection_guard_witness :
    ((set_journal_mode oracleId "wal;attach" db0 =
        .error (.panicked "assertion failed: journal mode contains a semicolon") db0 ↔
      ("wal;attach").data.contains ';' = true) ∧
    ((∃ s, set_journal_mode oracleId "wal;attach" db0 = .ok () s ∧
        s.pragmas = db0.pragmas ++ ["pragma journal_mode = " ++ "wal;attach"]) ↔
      ("wal;attach").data.contains ';' = false)) :=
  set_journal_mode_injection_guard oracleId "wal;attach" db0

/-- C9: `upgrade` asserts that the handler array has length exactly
`EXPECTED_VERSION`, and under the validated precondition
`0 ≤ old ≤ ver < target = EXPECTED_VERSION` every index the loop uses,
after the `as usize` cast, is in bounds for the array. -/
theorem upgraders_index_in_bounds (o : Oracle) (old target ver : Int)
    (h0 : 0 ≤ old) (hlo : old ≤ ver) (hhi : ver < target)
    (htar : target = EXPECTED_VERSION) :
    (upgraders o).length = EXPECTED_VERSION.toNat ∧
    usizeOfI32 ver < (upgraders o).length := by
  refine ⟨rfl, ?_⟩
  subst htar
  have h5 : ver < (5 : Int) := hhi
  show usizeOfI32 ver < 5
  unfold usizeOfI32
  omega

/-- Witness for C9: index 3 inside the range `[0, 5)`. -/
theorem upgraders_index_in_bounds_witness :
    (upgraders oracleId).length = EXPECTED_VERSION.toNat ∧
    usizeOfI32 3 < (upgraders oracleId).length :=
  upgraders_index_in_bounds oracleId 0 EXPECTED_VERSION 3 (by decide) (by decide)
    (by decide) rfl

/-- C10: even with zero steps to run (observed version already
`EXPECTED_VERSION`), a successful `run` still mutates connection
settings: the three forced durability pragmas execute (foreign_keys on,
fullfsync on, synchronous = 2), the journal mode is requested first at
the preset value and then at "wal" (leaving the engine-granted mode for
"wal"), and — compaction not being skipped — the page size is set to
16384 and the database vacuumed; yet no transaction is opened and the
version log is untouched. -/
theorem run_noop_still_mutates (o : Oracle) (args : Args) (st : DbState)
    (hmax : maxId st.version = some EXPECTED_VERSION)
    (hsemi : args.flag_preset_journal.data.contains ';' = false)
    (hvac : args.flag_no_vacuum = false) :
    ∃ s, run o args st = .ok () s ∧
      s.version = st.version ∧ s.txs = st.txs ∧
      s.foreignKeys = true ∧ s.fullfsync = true ∧ s.synchronous = 2 ∧
      s.pragmas = st.pragmas ++ durabilityPragmas ++
        ["pragma journal_mode = " ++ args.flag_preset_journal,
         "pragma journal_mode = wal", "pragma page_size = 16384"] ∧
      s.journalLog = st.journalLog ++
        [(o.grant args.flag_preset_journal, args.flag_preset_journal),
         (o.grant "wal", "wal")] ∧
      s.journalMode = o.grant "wal" ∧
      s.pageSize = 16384 ∧ s.vacuumCount = st.vacuumCount + 1 := by
  obtain ⟨s, hs, hver, htxs, hfk, hff, hsy, hjm, hjl, hpr, hps, hvc, -⟩ :=
    run_ok o args st EXPECTED_VERSION hmax (by decide) (le_refl _) hsemi
      (fun i h1 h2 => absurd h2 (Nat.not_lt.mpr h1))
  have h00 : (EXPECTED_VERSION - EXPECTED_VERSION).toNat = 0 := by decide
  rw [h00] at hver htxs
  rw [hvac] at hpr hps hvc
  refine ⟨s, hs, ?_, ?_, hfk, hff, hsy, ?_, hjl, hjm, ?_, ?_⟩
  · rw [hver]
    simp [stepRows, intRangeAux]
  · rw [htxs]
    omega
  · rw [hpr]
    simp
  · rw [hps]
    simp
  · rw [hvc]
    simp

/-- Witness for C10: a database already at version 5 with the default
arguments. -/
theorem run_noop_still_mutates_witness :
    ∃ s, run oracleId argsDefault db5 = .ok () s ∧
      s.version = db5.version ∧ s.txs = db5.txs ∧
      s.foreignKeys = true ∧ s.fullfsync = true ∧ s.synchronous = 2 ∧
      s.pragmas = db5.pragmas ++ durabilityPragmas ++
        ["pragma journal_mode = " ++ argsDefault.flag_preset_journal,
         "pragma journal_mode = wal", "pragma page_size = 16384"] ∧
      s.journalLog = db5.journalLog ++
        [(oracleId.grant argsDefault.flag_preset_journal,
          argsDefault.flag_preset_journal),
         (oracleId.grant "wal", "wal")] ∧
      s.journalMode = oracleId.grant "wal" ∧
      s.pageSize = 16384 ∧ s.vacuumCount = db5.vacuumCount + 1 :=
  run_noop_still_mutates oracleId argsDefault db5 (by decide) (by decide) rfl

end Upgrade
